import Mathlib

/-!
Verification of the Schnorr signature scheme implemented in
src/src/schnorr_sig/schnorr.rs.

The implementation works over the prime-order subgroup G1 of the BLS12-381
curve (arkworks ark_bls12_381), with scalar field Fr of prime order r, and
uses SHA-256 for the Fiat-Shamir challenge.  The curve, field and hash
libraries are external dependencies of the repository; the protocol logic
itself (key generation, signing, challenge derivation, verification) is
embedded below directly from the Rust source.

Modelling choices:
* The scalar field Fr is `ZMod r` with r the (prime) order of G1.
* The subgroup G1 is cyclic of prime order r, hence isomorphic to the
  additive group `ZMod r`.  A point is represented by its discrete
  logarithm to base the fixed generator; group addition adds logarithms and
  scalar multiplication multiplies a logarithm by the scalar.  Every group
  element the scheme manipulates (public keys, commitments) is produced as
  a scalar multiple of the generator, so this representation is faithful.
* Calls to `rand::thread_rng` are modelled by passing the sampled scalar as
  an explicit argument (`alpha_t` for the nonce in `sign`, `fallbackRand`
  for the scalar freshly sampled inside `hash_message_and_ut` when
  `from_random_bytes` fails).
* SHA-256 and the arkworks compressed point serialization are external
  primitives; they are bundled abstractly in an `Externals` structure as
  functions on byte lists (bytes are `ℕ` taken mod 256 where it matters).
  `from_random_bytes`, whose partiality is what decides several claims, is
  modelled concretely after the arkworks semantics for Fr on a 32-byte
  digest: read the bytes little-endian, mask off the bits at positions
  at or above the 255-bit modulus size, accept iff the value is below r.
* The projective-coordinate detour in `generate_keypair` is modelled at the
  coordinate level over the base field `Fq = ZMod p`, with p the modulus
  declared in the source (line 13), for the claim about that detour.
-/

namespace SchnorrVerif

/-- Order of the BLS12-381 G1 subgroup, i.e. the modulus of the arkworks
scalar field `Fr` (aliased `ScalarField` in the source).  A 255-bit prime. -/
def r : ℕ :=
  52435875175126190479447740508185965837690552500527637822603658699938581184513

/-- Base-field modulus of BLS12-381, as declared by the `#[modulus = ...]`
attribute on `FqConfig` in the source (line 13). -/
def p : ℕ :=
  4002409555221667393417789825735904156556882819939007885332058136124031650490837864442687629129015664037894272559787

/-- The scalar field `Fr` of BLS12-381 (`ScalarField` in the source). -/
abbrev ScalarField : Type := ZMod r

/-- A point of the prime-order subgroup of BLS12-381 G1, represented by its
discrete logarithm to base the fixed generator (the subgroup is cyclic of
prime order r, hence isomorphic to the additive group `ZMod r`; point
equality corresponds to equality of logarithms).  At this level the
affine/projective distinction of the source is invisible: both represent the
same abstract group element, and `into_affine` is the identity on the
abstract point. -/
structure G1Point where
  log : ZMod r
deriving DecidableEq

/-- Group addition (the `+` of arkworks curve points). -/
def G1Point.add (P Q : G1Point) : G1Point := ⟨P.log + Q.log⟩

/-- Scalar multiplication `P * k` of a curve point by a scalar. -/
def G1Point.smul (k : ScalarField) (P : G1Point) : G1Point := ⟨k * P.log⟩

/-- The fixed generator `G1Projective::generator()`. -/
def generator : G1Point := ⟨1⟩

/-- The external primitives the protocol calls into: SHA-256 (`sha2` crate)
producing a 32-byte digest, and the arkworks canonical compressed
serialization of a G1 point (`serialize_compressed`), both as functions on
byte lists.  They are opaque to the protocol logic: every claim below holds
for an arbitrary choice of these functions unless it explicitly constrains
them. -/
structure Externals where
  sha256 : List ℕ → List ℕ
  serializeCompressed : G1Point → List ℕ

/-- Value of a byte list read as a little-endian integer. -/
def bytesToNatLE : List ℕ → ℕ
  | [] => 0
  | b :: bs => b % 256 + 256 * bytesToNatLE bs

/-- Models `ScalarField::from_random_bytes` (ark_ff `Fp::from_random_bytes`)
on the 32-byte SHA-256 digest: the bytes are read as a little-endian
integer, the bits at positions at or above `MODULUS_BIT_SIZE = 255` are
masked off, and the result is accepted iff the masked value is below the
modulus r; otherwise the function returns `none`.  In particular it is
partial: digests whose masked value lands in the interval from r to
2 ^ 255 - 1 (about 9.5 percent of all 256-bit digests) are rejected. -/
def from_random_bytes (bytes : List ℕ) : Option ScalarField :=
  let v : ℕ := bytesToNatLE bytes % 2 ^ 255
  if v < r then some (v : ScalarField) else none

/-- Embedding of `SchnorrSig::hash_message_and_ut` (source lines 53-66):
serialize the commitment with `serialize_compressed`, hash the message bytes
followed by the serialized commitment bytes with SHA-256, and convert the
digest with `from_random_bytes`; on failure (`unwrap_or`) the source falls
back to `ScalarField::rand(&mut rand::thread_rng())`, modelled by the
explicit `fallbackRand` argument. -/
def hash_message_and_ut (E : Externals) (fallbackRand : ScalarField)
    (message : List ℕ) (u_t : G1Point) : ScalarField :=
  let u_t_serialized_bytes := E.serializeCompressed u_t
  let hash_result := E.sha256 (message ++ u_t_serialized_bytes)
  match from_random_bytes hash_result with
  | some c => c
  | none => fallbackRand

/-- Embedding of `SchnorrSig::sign` (source lines 36-51).  The two scalars
sampled from `thread_rng` during the call are passed explicitly: `alpha_t`
is the nonce, `fallbackRand` the scalar sampled inside
`hash_message_and_ut` if `from_random_bytes` fails on the digest. -/
def sign (E : Externals) (alpha_t fallbackRand : ScalarField)
    (private_key : ScalarField) (message : List ℕ) : G1Point × ScalarField :=
  let u_t_affine := G1Point.smul alpha_t generator
  let c := hash_message_and_ut E fallbackRand message u_t_affine
  let alpha_z := alpha_t + private_key * c
  (u_t_affine, alpha_z)

/-- Models the redundant re-conversion `ScalarField::from(c)` applied in
`verify` (source line 81): the Rust `From<Fr> for Fr` implementation is the
reflexive one, i.e. the identity. -/
def scalarFieldFrom (c : ScalarField) : ScalarField := c

/-- Embedding of `SchnorrSig::verify` (source lines 68-87): recompute the
challenge from the message and the commitment (with `fallbackRand` the
scalar sampled inside `hash_message_and_ut` if digest conversion fails),
compute `g = Generator * alpha_z` and
`g_prime = u_t + public_key * ScalarField::from(c)`, and return the boolean
`g == g_prime`. -/
def verify (E : Externals) (fallbackRand : ScalarField) (public_key : G1Point)
    (message : List ℕ) (signature : G1Point × ScalarField) : Bool :=
  let u_t := signature.1
  let alpha_z := signature.2
  let c := hash_message_and_ut E fallbackRand message u_t
  let g := G1Point.smul alpha_z generator
  let u_c := G1Point.smul (scalarFieldFrom c) public_key
  let g_prime := G1Point.add u_t u_c
  decide (g = g_prime)

/-- Verification as worded by the spec (section 4.4 and the design note in
section 9): identical to `verify` except that the challenge is used
directly, without the redundant `ScalarField::from` re-conversion. -/
def verify_direct (E : Externals) (fallbackRand : ScalarField)
    (public_key : G1Point) (message : List ℕ)
    (signature : G1Point × ScalarField) : Bool :=
  let u_t := signature.1
  let alpha_z := signature.2
  let c := hash_message_and_ut E fallbackRand message u_t
  let g := G1Point.smul alpha_z generator
  let u_c := G1Point.smul c public_key
  let g_prime := G1Point.add u_t u_c
  decide (g = g_prime)

/-- Embedding of `SchnorrSig::generate_keypair` (source lines 19-34) at the
abstract group level, with the sampled private key passed explicitly.  The
source computes `public_key = G1Projective::generator() * private_key`,
rebuilds the projective point from its own (x, y, z) coordinates and
converts it to affine; at the abstract level both of those steps are the
identity on the group element (the coordinate-level fact that the rebuild
is a no-op is proved separately over `Fq`). -/
def generate_keypair (private_key : ScalarField) : ScalarField × G1Point :=
  let public_key := G1Point.smul private_key generator
  let public_key_projective := public_key
  let public_key_affine := public_key_projective
  (private_key, public_key_affine)

/-- The base field `Fq = ZMod p` of BLS12-381, over which projective and
affine point coordinates live (`Fq` in the source, built from `FqConfig`). -/
abbrev Fq : Type := ZMod p

/-- A G1 point in the projective (Jacobian) coordinates used by arkworks
`G1Projective`: the affine point is `(x / z ^ 2, y / z ^ 3)`, and `z = 0`
encodes the point at infinity. -/
structure G1Projective where
  x : Fq
  y : Fq
  z : Fq
deriving DecidableEq

/-- Models `G1Projective::new(x, y, z)` as called in `generate_keypair`
(source lines 25-29): the constructor packs the three coordinates into a
projective point (in release builds it performs no coordinate change). -/
def G1Projective.new (x y z : Fq) : G1Projective := ⟨x, y, z⟩

/-- Models the `.into()` conversions applied to each coordinate in
`generate_keypair` (source lines 26-28): the reflexive Rust `From<Fq> for
Fq` conversion, i.e. the identity on the base field. -/
def fqInto (a : Fq) : Fq := a

/-- An affine G1 point as produced by `into_affine`: either the point at
infinity or a pair of affine coordinates. -/
def G1AffineCoords : Type := Option (Fq × Fq)

/-- Models arkworks `into_affine` on Jacobian coordinates: the point at
infinity when `z = 0`, otherwise `(x * zinv ^ 2, y * zinv ^ 3)` for the
field inverse `zinv` of `z`. -/
def G1Projective.into_affine (P : G1Projective) : G1AffineCoords :=
  if P.z = 0 then none
  else some (P.x * P.z⁻¹ ^ 2, P.y * P.z⁻¹ ^ 3)

/-- Errors surfaced by the embedded fallible paths. -/
def SerializationError : Type := String

/-- Result-level model of `u_t.serialize_compressed(&mut bytes)` writing
into a `Vec<u8>` (source lines 54-57).  Modelled from the spec: the
`io::Write` implementation for an in-memory vector always succeeds, so
serialization of a valid group element never returns an error (spec section
7 calls this branch unreachable); the `Except` layer records where the
`.expect` panic would live. -/
def serialize_compressed_checked (E : Externals) (u_t : G1Point) :
    Except SerializationError (List ℕ) :=
  Except.ok (E.serializeCompressed u_t)

/-- Fault-aware embedding of `hash_message_and_ut`: the `.expect` on
`serialize_compressed` becomes the error branch of `Except`; everything
after it is the same computation as `hash_message_and_ut`. -/
def hash_message_and_ut_checked (E : Externals) (fallbackRand : ScalarField)
    (message : List ℕ) (u_t : G1Point) :
    Except SerializationError ScalarField :=
  match serialize_compressed_checked E u_t with
  | Except.error e => Except.error e
  | Except.ok u_t_serialized_bytes =>
    let hash_result := E.sha256 (message ++ u_t_serialized_bytes)
    Except.ok (match from_random_bytes hash_result with
      | some c => c
      | none => fallbackRand)

/-- Fault-aware embedding of `verify`: any fault of the challenge
derivation propagates; otherwise the boolean group-equation check runs
exactly as in `verify`. -/
def verify_checked (E : Externals) (fallbackRand : ScalarField)
    (public_key : G1Point) (message : List ℕ)
    (signature : G1Point × ScalarField) :
    Except SerializationError Bool :=
  let u_t := signature.1
  let alpha_z := signature.2
  match hash_message_and_ut_checked E fallbackRand message u_t with
  | Except.error e => Except.error e
  | Except.ok c =>
    let g := G1Point.smul alpha_z generator
    let u_c := G1Point.smul (scalarFieldFrom c) public_key
    let g_prime := G1Point.add u_t u_c
    Except.ok (decide (g = g_prime))

/-- Fuel-driven binary modular exponentiation, used to make the primality
certificate for r kernel-checkable: `powModAux fuel a k n` computes
`a ^ k % n` provided `k < 2 ^ fuel`. -/
def powModAux : ℕ → ℕ → ℕ → ℕ → ℕ
  | 0, _, _, n => 1 % n
  | fuel + 1, a, k, n =>
    if k = 0 then 1 % n
    else
      let h := powModAux fuel a (k / 2) n
      let h2 := h * h % n
      if k % 2 = 0 then h2 else h2 * (a % n) % n

/-- Modular exponentiation with enough fuel for any exponent below
`2 ^ 256`, which covers every exponent used in the certificate for r. -/
def powMod (a k n : ℕ) : ℕ := powModAux 256 a k n

/-- Concrete choice of external primitives whose digest has all 256 bits
set: the masked little-endian value of the digest is 2 ^ 255 - 1, which is
at least r, so `from_random_bytes` rejects it.  Digests with this property
exist for the real SHA-256 as well (about 9.5 percent of all digests); this
instance makes the rejection branch concretely computable. -/
def badDigestExternals : Externals where
  sha256 := fun _ => List.replicate 32 255
  serializeCompressed := fun _ => []

/-- Concrete choice of external primitives distinguishing the two one-byte
messages 0 and 1: hashing input starting with byte 0 yields the 32-byte
little-endian digest of the integer 1, any other input yields the digest of
the integer 2.  Both digests are below r, so `from_random_bytes` accepts
them, giving challenges 1 and 2 respectively. -/
def twoMessageExternals : Externals where
  sha256 := fun l => if l = [0] then 1 :: List.replicate 31 0 else 2 :: List.replicate 31 0
  serializeCompressed := fun _ => []

/-! ### Helper lemmas: fast modular exponentiation and primality of r

The order r of the BLS12-381 G1 subgroup is prime; several claims rely on
the scalar field being an actual field (no zero divisors, invertibility of
nonzero elements).  Primality is established through a Lucas certificate
with witness 7, using the complete factorization of r - 1. -/

theorem powModAux_eq :
    ∀ (fuel a k n : ℕ), k < 2 ^ fuel → powModAux fuel a k n = a ^ k % n := by
  intro fuel
  induction fuel with
  | zero =>
    intro a k n hk
    norm_num at hk
    subst hk
    simp [powModAux]
  | succ fuel ih =>
    intro a k n hk
    by_cases hk0 : k = 0
    · subst hk0
      simp [powModAux]
    · have hdiv : k / 2 < 2 ^ fuel := by
        rw [pow_succ] at hk
        omega
      have hsplit : a ^ k = a ^ (k / 2) * a ^ (k / 2) * a ^ (k % 2) := by
        rw [← pow_add, ← pow_add]
        congr 1
        omega
      simp only [powModAux, if_neg hk0]
      rw [ih a (k / 2) n hdiv]
      by_cases hpar : k % 2 = 0
      · rw [if_pos hpar]
        conv_rhs => rw [hsplit, hpar, pow_zero, mul_one, Nat.mul_mod]
      · rw [if_neg hpar]
        have h1 : k % 2 = 1 := by omega
        conv_rhs => rw [hsplit, h1, pow_one, Nat.mul_mod, Nat.mul_mod (a ^ (k / 2))]

theorem powMod_spec (a k n : ℕ) (hk : k < 2 ^ 256) : powMod a k n = a ^ k % n :=
  powModAux_eq 256 a k n hk

theorem natCast_pow_eq_powMod (n a k : ℕ) (hk : k < 2 ^ 256) :
    ((a : ℕ) : ZMod n) ^ k = ((powMod a k n : ℕ) : ZMod n) := by
  rw [powMod_spec a k n hk, ZMod.natCast_mod, Nat.cast_pow]

theorem zmod_pow_ne_one_of_powMod (n a k : ℕ) (hk : k < 2 ^ 256)
    (h : ¬ powMod a k n % n = 1 % n) : ((a : ℕ) : ZMod n) ^ k ≠ 1 := by
  rw [natCast_pow_eq_powMod n a k hk,
    show (1 : ZMod n) = ((1 : ℕ) : ZMod n) by rw [Nat.cast_one], Ne,
    ZMod.natCast_eq_natCast_iff']
  exact h

theorem zmod_pow_eq_one_of_powMod (n a k : ℕ) (hk : k < 2 ^ 256)
    (h : powMod a k n % n = 1 % n) : ((a : ℕ) : ZMod n) ^ k = 1 := by
  rw [natCast_pow_eq_powMod n a k hk,
    show (1 : ZMod n) = ((1 : ℕ) : ZMod n) by rw [Nat.cast_one],
    ZMod.natCast_eq_natCast_iff']
  exact h

set_option maxRecDepth 100000 in
theorem prime_63690073 : Nat.Prime 63690073 := by
  apply lucas_primality 63690073 ((7 : ℕ) : ZMod 63690073)
  · exact zmod_pow_eq_one_of_powMod 63690073 7 (63690073 - 1) (by decide) (by decide)
  · intro q hq hdvd
    have hfac : 63690073 - 1 = 2 ^ 3 * 3 ^ 1 * 2653753 ^ 1 := by decide
    rw [hfac] at hdvd
    repeat rcases (Nat.Prime.dvd_mul hq).mp hdvd with hdvd | hdvd
    all_goals try replace hdvd := hq.dvd_of_dvd_pow hdvd
    all_goals rw [(Nat.prime_dvd_prime_iff_eq hq (by norm_num)).mp hdvd]
    all_goals exact zmod_pow_ne_one_of_powMod 63690073 7 _ (by decide) (by decide)

set_option maxRecDepth 100000 in
theorem prime_52437899 : Nat.Prime 52437899 := by
  apply lucas_primality 52437899 ((2 : ℕ) : ZMod 52437899)
  · exact zmod_pow_eq_one_of_powMod 52437899 2 (52437899 - 1) (by decide) (by decide)
  · intro q hq hdvd
    have hfac : 52437899 - 1 = 2 ^ 1 * 43 ^ 1 * 609743 ^ 1 := by decide
    rw [hfac] at hdvd
    repeat rcases (Nat.Prime.dvd_mul hq).mp hdvd with hdvd | hdvd
    all_goals try replace hdvd := hq.dvd_of_dvd_pow hdvd
    all_goals rw [(Nat.prime_dvd_prime_iff_eq hq (by norm_num)).mp hdvd]
    all_goals exact zmod_pow_ne_one_of_powMod 52437899 2 _ (by decide) (by decide)

set_option maxRecDepth 100000 in
theorem prime_254760293 : Nat.Prime 254760293 := by
  apply lucas_primality 254760293 ((2 : ℕ) : ZMod 254760293)
  · exact zmod_pow_eq_one_of_powMod 254760293 2 (254760293 - 1) (by decide) (by decide)
  · intro q hq hdvd
    have hfac : 254760293 - 1 = 2 ^ 2 * 63690073 ^ 1 := by decide
    rw [hfac] at hdvd
    repeat rcases (Nat.Prime.dvd_mul hq).mp hdvd with hdvd | hdvd
    all_goals try replace hdvd := hq.dvd_of_dvd_pow hdvd
    all_goals rw [(Nat.prime_dvd_prime_iff_eq hq
      (by first | exact prime_63690073 | norm_num)).mp hdvd]
    all_goals exact zmod_pow_ne_one_of_powMod 254760293 2 _ (by decide) (by decide)

theorem prime_factors_of_r_sub_one (q : ℕ) (hq : q.Prime) (hdvd : q ∣ r - 1) :
    q = 2 ∨ q = 3 ∨ q = 11 ∨ q = 19 ∨ q = 10177 ∨ q = 125527 ∨ q = 859267 ∨
    q = 906349 ∨ q = 2508409 ∨ q = 2529403 ∨ q = 52437899 ∨ q = 254760293 := by
  have hfac : r - 1 = 2 ^ 32 * 3 ^ 1 * 11 ^ 1 * 19 ^ 1 * 10177 ^ 1 * 125527 ^ 1 *
      859267 ^ 1 * 906349 ^ 2 * 2508409 ^ 1 * 2529403 ^ 1 * 52437899 ^ 1 *
      254760293 ^ 2 := by decide
  rw [hfac] at hdvd
  repeat rcases (Nat.Prime.dvd_mul hq).mp hdvd with hdvd | hdvd
  all_goals try replace hdvd := hq.dvd_of_dvd_pow hdvd
  all_goals have heq := (Nat.prime_dvd_prime_iff_eq hq
    (by first | exact prime_52437899 | exact prime_254760293 | norm_num)).mp hdvd
  all_goals tauto

set_option maxHeartbeats 4000000 in
set_option maxRecDepth 100000 in
theorem r_prime : Nat.Prime r := by
  apply lucas_primality r ((7 : ℕ) : ZMod r)
  · exact zmod_pow_eq_one_of_powMod r 7 (r - 1) (by decide) (by decide)
  · intro q hq hdvd
    rcases prime_factors_of_r_sub_one q hq hdvd with
      h | h | h | h | h | h | h | h | h | h | h | h <;> subst h <;>
      exact zmod_pow_ne_one_of_powMod r 7 _ (by decide) (by decide)

/-! ### Claim theorems -/

/-- C4: for every secret key, message, sampled nonce and fallback scalar,
`sign` returns the pair (U, z) with commitment U = Generator * r and
response z = r + secretKey * c in scalar-field arithmetic, where c is the
challenge derived from (message, U). -/
theorem sign_algorithm (E : Externals) (alpha_t fallbackRand private_key : ScalarField)
    (message : List ℕ) :
    sign E alpha_t fallbackRand private_key message =
      (G1Point.smul alpha_t generator,
        alpha_t + private_key *
          hash_message_and_ut E fallbackRand message (G1Point.smul alpha_t generator)) :=
  rfl

/-- C5: for every public key, message and signature (commitment, response),
`verify` recomputes the challenge c from (message, commitment) and returns
true exactly when Generator * response equals commitment + publicKey * c in
the group. -/
theorem verify_algorithm (E : Externals) (fallbackRand : ScalarField)
    (public_key : G1Point) (message : List ℕ)
    (signature : G1Point × ScalarField) :
    verify E fallbackRand public_key message signature = true ↔
      G1Point.smul signature.2 generator =
        G1Point.add signature.1
          (G1Point.smul (hash_message_and_ut E fallbackRand message signature.1)
            public_key) := by
  simp [verify, scalarFieldFrom]

/-- C6: every key pair returned by `generate_keypair` satisfies
publicKey = Generator * secretKey (the affine conversion at the end of the
source function does not change the group element; the coordinate-level
fact about the projective rebuild is `projective_rebuild_noop`). -/
theorem generate_keypair_postcondition (private_key : ScalarField) :
    (generate_keypair private_key).2 =
      G1Point.smul (generate_keypair private_key).1 generator :=
  rfl

/-- C9: the re-conversion `ScalarField::from(c)` applied in `verify` to the
challenge c, already a scalar-field element, is the identity, so `verify`
returns the same boolean as the variant `verify_direct` that uses c
directly, for every public key, message and signature. -/
theorem verify_reconversion_identity (E : Externals) (fallbackRand : ScalarField)
    (public_key : G1Point) (message : List ℕ)
    (signature : G1Point × ScalarField) :
    verify E fallbackRand public_key message signature =
      verify_direct E fallbackRand public_key message signature :=
  rfl

/-- C10: rebuilding a projective point from its own (x, y, z) coordinates
(with the identity `.into()` coordinate conversions) and then converting to
affine yields exactly the same affine point as converting the original
projective point directly: the intermediate reconstruction step in
`generate_keypair` is a no-op for every projective point, in particular for
the public key Generator * secretKey computed from any sampled secret
key. -/
theorem projective_rebuild_noop (P : G1Projective) :
    (G1Projective.new (fqInto P.x) (fqInto P.y) (fqInto P.z)).into_affine =
      P.into_affine :=
  rfl

/-- C8: for every public key, message, signature and fallback scalar, the
fault-aware embedding of `verify` returns `Except.ok` of the boolean that
`verify` computes: the serialization-failure branch guarding the `.expect`
in the challenge derivation is never taken (serialization into an in-memory
buffer always succeeds), so verification failure is reported solely as the
returned boolean false. -/
theorem verify_checked_never_faults (E : Externals) (fallbackRand : ScalarField)
    (public_key : G1Point) (message : List ℕ)
    (signature : G1Point × ScalarField) :
    verify_checked E fallbackRand public_key message signature =
      Except.ok (verify E fallbackRand public_key message signature) :=
  rfl

/-- C3 (defect): when the SHA-256 digest of the message followed by the
serialized commitment is rejected by `from_random_bytes` (masked value at
least r), the challenge derivation does not map the digest into the scalar
field at all: it returns the freshly sampled random scalar `fallbackRand`,
contradicting the requirement that the digest-to-scalar mapping be total
and never fall back to a random value. -/
theorem challenge_falls_back_to_random_scalar (E : Externals)
    (fallbackRand : ScalarField) (message : List ℕ) (u_t : G1Point)
    (hH : from_random_bytes (E.sha256 (message ++ E.serializeCompressed u_t)) = none) :
    hash_message_and_ut E fallbackRand message u_t = fallbackRand := by
  simp [hash_message_and_ut, hH]

/-- Witness for `challenge_falls_back_to_random_scalar`: with the concrete
all-ones digest the hypothesis holds and the derived challenge is exactly
the fallback scalar 5. -/
theorem challenge_falls_back_to_random_scalar_witness :
    from_random_bytes (badDigestExternals.sha256
        ([] ++ badDigestExternals.serializeCompressed generator)) = none ∧
      hash_message_and_ut badDigestExternals 5 [] generator = 5 :=
  ⟨by decide,
    challenge_falls_back_to_random_scalar badDigestExternals 5 [] generator (by decide)⟩

/-- C2 (defect): the challenge derivation is not deterministic on the pairs
(message, commitment) whose digest is rejected by `from_random_bytes`: two
evaluations that draw different fallback scalars from the random source
yield different challenges. -/
theorem challenge_not_deterministic_under_fallback (E : Externals)
    (fb1 fb2 : ScalarField) (message : List ℕ) (u_t : G1Point)
    (hH : from_random_bytes (E.sha256 (message ++ E.serializeCompressed u_t)) = none)
    (hfb : fb1 ≠ fb2) :
    hash_message_and_ut E fb1 message u_t ≠ hash_message_and_ut E fb2 message u_t := by
  simp [hash_message_and_ut, hH]
  exact hfb

/-- Witness for `challenge_not_deterministic_under_fallback`: on the
concrete all-ones digest, fallback draws 0 and 1 give different
challenges. -/
theorem challenge_not_deterministic_under_fallback_witness :
    from_random_bytes (badDigestExternals.sha256
        ([] ++ badDigestExternals.serializeCompressed generator)) = none ∧
      (0 : ScalarField) ≠ 1 ∧
      hash_message_and_ut badDigestExternals 0 [] generator ≠
        hash_message_and_ut badDigestExternals 1 [] generator :=
  ⟨by decide, by decide,
    challenge_not_deterministic_under_fallback badDigestExternals 0 1 [] generator
      (by decide) (by decide)⟩

/-- C1 (defect): completeness fails whenever the digest of the honestly
signed commitment is rejected by `from_random_bytes`: the signer derives the
challenge from one fresh random fallback scalar and the verifier from
another, and for any nonzero secret key and distinct fallback draws the
honest signature is rejected. -/
theorem completeness_fails_under_hash_fallback (E : Externals)
    (sk alpha_t fb1 fb2 : ScalarField) (m : List ℕ)
    (hH : from_random_bytes (E.sha256
        (m ++ E.serializeCompressed (G1Point.smul alpha_t generator))) = none)
    (hsk : sk ≠ 0) (hfb : fb1 ≠ fb2) :
    verify E fb2 (G1Point.smul sk generator) m (sign E alpha_t fb1 sk m) = false := by
  haveI : Fact (Nat.Prime r) := ⟨r_prime⟩
  have hc1 : hash_message_and_ut E fb1 m (G1Point.smul alpha_t generator) = fb1 := by
    simp [hash_message_and_ut, hH]
  have hc2 : hash_message_and_ut E fb2 m (G1Point.smul alpha_t generator) = fb2 := by
    simp [hash_message_and_ut, hH]
  simp only [verify, sign, hc1, hc2, scalarFieldFrom]
  rw [decide_eq_false_iff_not]
  intro hEq
  have hlog := congrArg G1Point.log hEq
  simp only [G1Point.smul, G1Point.add, generator, mul_one] at hlog
  have hmul : sk * fb1 = sk * fb2 := by
    have := add_left_cancel hlog
    rw [this, mul_comm]
  exact hfb (mul_left_cancel₀ hsk hmul)

/-- Witness for `completeness_fails_under_hash_fallback`: with the concrete
all-ones digest, secret key 1, nonce 0 and fallback draws 0 (signer) and 1
(verifier), the honestly produced signature is rejected. -/
theorem completeness_fails_under_hash_fallback_witness :
    from_random_bytes (badDigestExternals.sha256
        ([] ++ badDigestExternals.serializeCompressed (G1Point.smul 0 generator))) = none ∧
      (1 : ScalarField) ≠ 0 ∧ (0 : ScalarField) ≠ 1 ∧
      verify badDigestExternals 1 (G1Point.smul 1 generator) []
        (sign badDigestExternals 0 0 1 []) = false :=
  ⟨by decide, by decide, by decide,
    completeness_fails_under_hash_fallback badDigestExternals 1 0 0 1 (m := [])
      (by decide) (by decide) (by decide)⟩

/-- C7: nonce reuse leaks the secret key.  If the same nonce is used to
sign two different messages and the two derived challenges differ, the
secret key is recovered from the two signatures as
(z1 - z2) * (c1 - c2)⁻¹ in the scalar field. -/
theorem nonce_reuse_leaks_secret_key (E : Externals)
    (sk alpha_t fb1 fb2 : ScalarField) (m1 m2 : List ℕ) (hm : m1 ≠ m2)
    (c1 c2 : ScalarField)
    (hc1 : c1 = hash_message_and_ut E fb1 m1 (G1Point.smul alpha_t generator))
    (hc2 : c2 = hash_message_and_ut E fb2 m2 (G1Point.smul alpha_t generator))
    (hne : c1 ≠ c2) :
    sk = ((sign E alpha_t fb1 sk m1).2 - (sign E alpha_t fb2 sk m2).2) *
      (c1 - c2)⁻¹ := by
  haveI : Fact (Nat.Prime r) := ⟨r_prime⟩
  have h1 : (sign E alpha_t fb1 sk m1).2 = alpha_t + sk * c1 := by rw [hc1]; rfl
  have h2 : (sign E alpha_t fb2 sk m2).2 = alpha_t + sk * c2 := by rw [hc2]; rfl
  have hsub : (alpha_t + sk * c1) - (alpha_t + sk * c2) = sk * (c1 - c2) := by ring
  rw [h1, h2, hsub, mul_assoc, mul_inv_cancel₀ (sub_ne_zero.mpr hne), mul_one]

/-- Witness for `nonce_reuse_leaks_secret_key`: with externals hashing the
messages [0] and [1] to the digests of 1 and 2, nonce 0 and secret key 5,
the challenges are 1 and 2 and the secret key is recovered from the two
signatures. -/
theorem nonce_reuse_leaks_secret_key_witness :
    ([0] : List ℕ) ≠ [1] ∧
      (1 : ScalarField) = hash_message_and_ut twoMessageExternals 0 [0]
        (G1Point.smul 0 generator) ∧
      (2 : ScalarField) = hash_message_and_ut twoMessageExternals 0 [1]
        (G1Point.smul 0 generator) ∧
      (1 : ScalarField) ≠ 2 ∧
      (5 : ScalarField) =
        ((sign twoMessageExternals 0 0 5 [0]).2 - (sign twoMessageExternals 0 0 5 [1]).2) *
          ((1 : ScalarField) - 2)⁻¹ :=
  ⟨by decide, by decide, by decide, by decide,
    nonce_reuse_leaks_secret_key twoMessageExternals 5 0 0 0 [0] [1] (by decide) 1 2
      (by decide) (by decide) (by decide)⟩

end SchnorrVerif
